import Mathlib

/-!
Shallow embedding of the CGMerger merge engine (`cgmerger/cgmerge.py`).

The program scans a working directory, optionally emits a header file,
then body files (an explicitly ordered group followed by the remaining
directory-listing order), then a footer file, concatenating everything
into one output file with per-file banner comments.

Modelling conventions:
* The configuration store `config["merger"]` is the stringly-typed record
  `MergerConfig`; conversions (`int(...)`, `s[0]`) happen exactly where the
  source performs them.
* The file system (`os.path.exists`, `os.path.isdir`, `os.path.isfile`,
  `os.listdir`, reading a file's lines with `readlines`) is a record of
  functions `FileSystem`.  File content is the list of lines as
  `readlines` returns them (each line keeps its trailing newline).
* A compiled regular expression's `search` truthiness is modelled as a
  function `eng : String → String → Bool` taking the pattern source and the
  searched string.  `litSearch` below gives the exact semantics of
  `re.compile(pat).search(s)` for a pattern `pat` that is a literal string
  (no metacharacters): a match exists iff `pat` occurs as a substring.
* `parser.error` (print to stderr and exit non-zero) is the `Except.error`
  branch; `parser.exit` (status zero) is `RunResult.exited`.  The output
  file is opened (and hence truncated) only after all validation checks
  succeed, so an `Except.error` result models a run that leaves the output
  file untouched.
* `configparser` only accepts string option values: the assignment
  `config["merger"]["footer"] = arguments.header` in
  `copy_parser_arguments_to_config` raises an uncaught `TypeError` when
  `arguments.header` is `None`, aborting the process with a non-zero
  status before the `--debug`/`--write` exits.  This error path is
  modelled explicitly (`CopyError.typeError` / `RunResult.crashed`).
* `chardet` encoding detection only affects how bytes are decoded into the
  lines that our `FileSystem.content` already provides, so it needs no
  separate model.
-/

/-- The `[merger]` configuration store: same keys and string values as the
Python `configparser` section.  `header`, `footer` and `order` are absent
by default, hence `Option`. -/
structure MergerConfig where
  output : String
  workdir : String
  file_regex : String
  exclude_line_regex : String
  comment : String
  separator_start : String
  separator_end : String
  separator_length : String
  header : Option String
  footer : Option String
  order : Option String
deriving Repr, DecidableEq

/-- The built-in defaults passed to `configparser.ConfigParser(defaults=...)`. -/
def defaultConfig : MergerConfig :=
  { output := "codingame.volatile.py"
    workdir := "codingame/"
    file_regex := ".*"
    exclude_line_regex := "^from codingame\\.|^import codingame|^from \\.|^import \\."
    comment := "#"
    separator_start := "-"
    separator_end := "="
    separator_length := "80"
    header := none
    footer := none
    order := none }

/-- The argparse `Namespace`: every CLI string flag is `Option String`
(`None` when not given on the command line); `--debug` and `--write` are
store-true flags. -/
structure CliArgs where
  output : Option String
  workdir : Option String
  order : Option String
  header : Option String
  footer : Option String
  comment : Option String
  separator_start : Option String
  separator_end : Option String
  separator_length : Option String
  file_regex : Option String
  exclude_line_regex : Option String
  debug : Bool
  write : Bool
deriving Repr, DecidableEq

/-- Abstract file system: `pathExists` is `os.path.exists`, `isdir` is
`os.path.isdir`, `isfile` is `os.path.isfile`, `listdir` is `os.listdir`,
and `content p` is the list of lines `readlines` yields for the file at
path `p` (each with its line terminator, as in Python). -/
structure FileSystem where
  pathExists : String → Bool
  isdir : String → Bool
  isfile : String → Bool
  listdir : String → List String
  content : String → List String

/-- `os.path.join(a, b)` for POSIX paths as used by the program (one
level of joining): `b` absolute wins; otherwise insert a `/` unless `a`
is empty or already ends in `/`. -/
def pathJoin (a b : String) : String :=
  if b.toList.headD (Char.ofNat 0) == '/' then b
  else if a.toList.isEmpty || (a.toList.getLast? == some '/') then a ++ b
  else a ++ "/" ++ b

/-- Python `str.split(",")`: cut at every comma, keeping empty pieces
(`"".split(",") == [""]`). -/
def splitCommaChars : List Char → List (List Char)
  | [] => [[]]
  | c :: rest =>
    if c == ',' then [] :: splitCommaChars rest
    else
      match splitCommaChars rest with
      | [] => [[c]]
      | g :: gs => (c :: g) :: gs

/-- String-level wrapper for `splitCommaChars` — `config["merger"]["order"].split(",")`. -/
def splitComma (s : String) : List String :=
  (splitCommaChars s.toList).map (fun l => String.mk l)

/-- Decimal digit accumulator for `int(...)` on an all-digit string. -/
def parseNatDigits (acc : Nat) : List Char → Option Nat
  | [] => some acc
  | c :: rest =>
    if '0' ≤ c && c ≤ '9' then parseNatDigits (10 * acc + (c.toNat - '0'.toNat)) rest
    else none

/-- `int(s)` for the non-negative integers the configuration uses.
Python raises `ValueError` on anything else; the model yields `none`
there and is only applied to numeric configuration values. -/
def parseNat? (s : String) : Option Nat :=
  match s.toList with
  | [] => none
  | l => parseNatDigits 0 l

/-- Validation failures raised through `parser.error`: the message either
names a missing file (`No "path" file present in ...`) or a missing
directory (`No "path" directory present in ...`). -/
inductive MergeError where
  | fileNotFound (path : String)
  | dirNotFound (path : String)
deriving Repr, DecidableEq

/-- `check_file_exists`: error out (naming the path) unless the path exists. -/
def checkFileExists (fs : FileSystem) (filePath : String) : Except MergeError Unit :=
  if fs.pathExists filePath then Except.ok () else Except.error (MergeError.fileNotFound filePath)

/-- `check_workdir_exists`: error out unless `workdir` is a directory. -/
def checkWorkdirExists (fs : FileSystem) (cfg : MergerConfig) : Except MergeError Unit :=
  if fs.isdir cfg.workdir then Except.ok () else Except.error (MergeError.dirNotFound cfg.workdir)

/-- The `for file_name in order: check_file_exists(...)` loop: the first
missing path aborts the run. -/
def checkFilesExist (fs : FileSystem) : List String → Except MergeError Unit
  | [] => Except.ok ()
  | p :: rest =>
    match checkFileExists fs p with
    | Except.ok _ => checkFilesExist fs rest
    | Except.error e => Except.error e

/-- `str.ljust(width, fill)`: append `fill` until the string has `width`
characters; a string already at least `width` long is returned unchanged. -/
def ljust (s : String) (width : Nat) (fill : Char) : String :=
  s ++ String.mk (List.replicate (width - s.length) fill)

/-- `int(config["merger"]["separator_length"])` (claims call this the
banner width). -/
def sepLength (cfg : MergerConfig) : Nat :=
  (parseNat? cfg.separator_length).getD 0

/-- `config["merger"]["separator_start"][0]` — the start-pad character.
Python raises `IndexError` on an empty string; the model is used only on
non-empty separator strings. -/
def startPadChar (cfg : MergerConfig) : Char :=
  cfg.separator_start.toList.headD (Char.ofNat 0)

/-- `config["merger"]["separator_end"][0]` — the end-pad character. -/
def endPadChar (cfg : MergerConfig) : Char :=
  cfg.separator_end.toList.headD (Char.ofNat 0)

/-- `f'{comment} file "{file_name}" '.ljust(separator_length, separator_start[0])` -/
def startFileComment (cfg : MergerConfig) (fileName : String) : String :=
  ljust (cfg.comment ++ " file \"" ++ fileName ++ "\" ") (sepLength cfg) (startPadChar cfg)

/-- `f'{comment} end of file "{file_name}" '.ljust(separator_length, separator_end[0])` -/
def endFileComment (cfg : MergerConfig) (fileName : String) : String :=
  ljust (cfg.comment ++ " end of file \"" ++ fileName ++ "\" ") (sepLength cfg) (endPadChar cfg)

/-- The per-line inclusion test of `write_to_output_file`'s loop:
`if ignore_regex or not exclude_line_regex.search(line)` (spec name:
`shouldInclude`). -/
def shouldInclude (eng : String → String → Bool) (excludePat : String)
    (ignoreRegex : Bool) (line : String) : Bool :=
  ignoreRegex || !(eng excludePat line)

/-- `write_to_output_file(file_name, output_file, exclude_line_regex,
disable_headers, ignore_regex)` as the string it appends to the output
sink.  `lines` is `current_file.readlines()`. -/
def writeToOutputFile (eng : String → String → Bool) (cfg : MergerConfig)
    (fileName : String) (lines : List String)
    (disableHeaders : Bool) (ignoreRegex : Bool) : String :=
  (if disableHeaders then "" else "\n" ++ startFileComment cfg fileName ++ "\n")
    ++ String.join (lines.filter (shouldInclude eng cfg.exclude_line_regex ignoreRegex))
    ++ (if disableHeaders then "" else "\n\n\n" ++ endFileComment cfg fileName ++ "\n")

/-- The uncaught `TypeError: option values must be strings` that
`configparser` raises when a non-string (`None`) is assigned as an
option value; it aborts the process with a non-zero status. -/
inductive CopyError where
  | typeError
deriving Repr, DecidableEq

/-- `copy_parser_arguments_to_config`: each `if arguments.x is not None`
assignment, in source order.  Faithful to the source: the `--footer`
branch assigns `arguments.header` to the `footer` key — when
`arguments.header` is a string the footer silently becomes the header
value, and when it is `None` the `configparser` assignment raises
`TypeError` (`CopyError.typeError`).  No branch exists for
`--separator-start`, `--separator-end` or `--separator-length`: those
flags are parsed but never copied. -/
def copyParserArgumentsToConfig (args : CliArgs) (cfg : MergerConfig) :
    Except CopyError MergerConfig :=
  let cfg := match args.file_regex with
    | some v => { cfg with file_regex := v }
    | none => cfg
  let cfg := match args.exclude_line_regex with
    | some v => { cfg with exclude_line_regex := v }
    | none => cfg
  let cfg := match args.output with
    | some v => { cfg with output := v }
    | none => cfg
  let cfg := match args.workdir with
    | some v => { cfg with workdir := v }
    | none => cfg
  let cfg := match args.header with
    | some v => { cfg with header := some v }
    | none => cfg
  match (match args.footer with
         | some _ =>
           match args.header with
           | some v => Except.ok { cfg with footer := some v }
           | none => Except.error CopyError.typeError
         | none => Except.ok cfg) with
  | Except.error e => Except.error e
  | Except.ok cfg =>
    let cfg := match args.comment with
      | some v => { cfg with comment := v }
      | none => cfg
    Except.ok (match args.order with
               | some v => { cfg with order := some v }
               | none => cfg)

/-- The data `get_parameters_from_config` derives beyond plain copies of
configuration fields: the split `order` list and the `files_to_watch`
listing.  (`output`, `workdir`, the two compiled patterns, `header` and
`footer` are read directly off the configuration.) -/
structure MergeParams where
  order : Option (List String)
  filesToWatch : List String
deriving Repr, DecidableEq

/-- `get_parameters_from_config`: split `order` on `","`, then check (in
source order) that the output file exists, that the workdir is a
directory, that every `order` entry exists under the workdir, and that the
header and footer (when configured) exist under the workdir; finally list
the regular files of the workdir. -/
def getParametersFromConfig (fs : FileSystem) (cfg : MergerConfig) :
    Except MergeError MergeParams :=
  let order := cfg.order.map splitComma
  match checkFileExists fs cfg.output with
  | Except.error e => Except.error e
  | Except.ok _ =>
    match checkWorkdirExists fs cfg with
    | Except.error e => Except.error e
    | Except.ok _ =>
      match (match order with
             | some o => checkFilesExist fs (o.map (fun f => pathJoin cfg.workdir f))
             | none => Except.ok ()) with
      | Except.error e => Except.error e
      | Except.ok _ =>
        match (match cfg.header with
               | some h => checkFileExists fs (pathJoin cfg.workdir h)
               | none => Except.ok ()) with
        | Except.error e => Except.error e
        | Except.ok _ =>
          match (match cfg.footer with
                 | some ft => checkFileExists fs (pathJoin cfg.workdir ft)
                 | none => Except.ok ()) with
          | Except.error e => Except.error e
          | Except.ok _ =>
            Except.ok
              { order := order
                filesToWatch :=
                  (fs.listdir cfg.workdir).filter
                    (fun f => fs.isfile (pathJoin cfg.workdir f)) }

/-- The body-file section the merge loop writes for workdir entry `f`
(banners on, line filter on). -/
def sectionFor (eng : String → String → Bool) (fs : FileSystem)
    (cfg : MergerConfig) (f : String) : String :=
  writeToOutputFile eng cfg (pathJoin cfg.workdir f)
    (fs.content (pathJoin cfg.workdir f)) false false

/-- The header emission of `main`: `write_to_output_file(join(workdir,
header), ..., disable_headers=True, ignore_regex=True)` when a header is
configured, nothing otherwise. -/
def headerSection (eng : String → String → Bool) (fs : FileSystem)
    (cfg : MergerConfig) : String :=
  match cfg.header with
  | some h =>
      writeToOutputFile eng cfg (pathJoin cfg.workdir h)
        (fs.content (pathJoin cfg.workdir h)) true true
  | none => ""

/-- The footer emission of `main`: `write_to_output_file(join(workdir,
footer), ..., disable_headers=True)` (so `ignore_regex` keeps its default
`False`) when a footer is configured, nothing otherwise. -/
def footerSection (eng : String → String → Bool) (fs : FileSystem)
    (cfg : MergerConfig) : String :=
  match cfg.footer with
  | some ft =>
      writeToOutputFile eng cfg (pathJoin cfg.workdir ft)
        (fs.content (pathJoin cfg.workdir ft)) true false
  | none => ""

/-- The `for f in order` loop of `main`: entries equal to the header or
footer are skipped (`continue`), every other entry — duplicates included —
gets a body section. -/
def orderedSections (eng : String → String → Bool) (fs : FileSystem)
    (cfg : MergerConfig) (ord : List String) : String :=
  String.join (ord.map (fun f =>
    if cfg.header == some f then ""
    else if cfg.footer == some f then ""
    else sectionFor eng fs cfg f))

/-- The `for f in files_to_watch` loop of `main`: skip entries already in
`order`, the header, the footer, and names the file pattern does not
match (`if not file_regex.search(f): continue`). -/
def unorderedSections (eng : String → String → Bool) (fs : FileSystem)
    (cfg : MergerConfig) (orderOpt : Option (List String))
    (files : List String) : String :=
  String.join (files.map (fun f =>
    if (match orderOpt with
        | some ord => ord.contains f
        | none => false) then ""
    else if cfg.header == some f then ""
    else if cfg.footer == some f then ""
    else if !(eng cfg.file_regex f) then ""
    else sectionFor eng fs cfg f))

/-- The entire text `main`'s merge loop writes to the output file, in
emission order: header, ordered group, unordered group, footer. -/
def mergeOutput (eng : String → String → Bool) (fs : FileSystem)
    (cfg : MergerConfig) (p : MergeParams) : String :=
  headerSection eng fs cfg
    ++ (match p.order with
        | some o => orderedSections eng fs cfg o
        | none => "")
    ++ unorderedSections eng fs cfg p.order p.filesToWatch
    ++ footerSection eng fs cfg

/-- The merge operation of `main` after the `--debug`/`--write` early
exits: validate via `get_parameters_from_config` (a failure exits before
`open(output, "w")` ever truncates the output file), then write the
merged text. -/
def mergeRun (eng : String → String → Bool) (fs : FileSystem)
    (cfg : MergerConfig) : Except MergeError String :=
  match getParametersFromConfig fs cfg with
  | Except.error e => Except.error e
  | Except.ok p => Except.ok (mergeOutput eng fs cfg p)

/-- Outcome of a `main` invocation: `crashed` is the uncaught
`TypeError` raised inside `copy_parser_arguments_to_config` (non-zero
abort before the `--debug`/`--write` exits), `exited` is `parser.exit`
(status zero), `failed` is `parser.error` (non-zero status, nothing
written to the output file), `merged` carries the text written to the
output file. -/
inductive RunResult where
  | crashed
  | exited (msg : String)
  | failed (e : MergeError)
  | merged (out : String)
deriving Repr, DecidableEq

/-- `main`, starting from the configuration as already loaded from the
defaults and any `cgmerger.conf` (`cfg0`): copy the CLI arguments in
(which can raise `TypeError`, line 170, aborting the run), then either
exit under `--debug` or `--write`, or perform the merge. -/
def mainRun (eng : String → String → Bool) (fs : FileSystem)
    (cfg0 : MergerConfig) (args : CliArgs) : RunResult :=
  match copyParserArgumentsToConfig args cfg0 with
  | Except.error _ => RunResult.crashed
  | Except.ok cfg =>
    if args.debug then RunResult.exited "No further operations will be performed"
    else if args.write then RunResult.exited "Config file created with listed values"
    else
      match mergeRun eng fs cfg with
      | Except.error e => RunResult.failed e
      | Except.ok s => RunResult.merged s

/-- The files of the ordered group actually emitted: the `order` sequence
with header/footer entries dropped, duplicates preserved. -/
def orderedKept (cfg : MergerConfig) (ord : List String) : List String :=
  ord.filter (fun f => !(cfg.header == some f) && !(cfg.footer == some f))

/-- The files of the unordered group actually emitted: directory-listing
entries not in `order`, not header/footer, and matching the file pattern. -/
def unorderedKept (eng : String → String → Bool) (cfg : MergerConfig)
    (orderOpt : Option (List String)) (files : List String) : List String :=
  files.filter (fun f =>
    !(match orderOpt with
      | some ord => ord.contains f
      | none => false)
    && !(cfg.header == some f)
    && !(cfg.footer == some f)
    && eng cfg.file_regex f)

/-- The sequence of body files for which `main` emits a section, in
emission order. -/
def emittedBodyFiles (eng : String → String → Bool) (cfg : MergerConfig)
    (orderOpt : Option (List String)) (files : List String) : List String :=
  (match orderOpt with
   | some o => orderedKept cfg o
   | none => [])
    ++ unorderedKept eng cfg orderOpt files

/-- `re.compile(pat).search(s)` truthiness for a pattern `pat` with no
regex metacharacters (a literal): try to match the literal at every start
position.  An empty pattern matches everywhere (Python's zero-width match
is truthy). -/
def litSearchChars (pat : List Char) : List Char → Bool
  | [] => pat.isPrefixOf []
  | c :: rest => pat.isPrefixOf (c :: rest) || litSearchChars pat rest

/-- String-level wrapper for `litSearchChars`. -/
def litSearch (pat s : String) : Bool :=
  litSearchChars pat.toList s.toList

/-! ## Concrete runs used by scenario conjuncts, counterexamples and witnesses -/

/-- A workdir with two body files and (for the header scenario) a header
file whose only line is `import os`. -/
def fsTwo : FileSystem :=
  { pathExists := fun _ => true
    isdir := fun _ => true
    isfile := fun _ => true
    listdir := fun _ => ["a.py", "b.py"]
    content := fun p => if p == "wd/head.py" then ["import os\n"] else ["x = 1\n"] }

/-- Configuration for the ordering scenario: `explicitOrder = b.py`, a
pattern matching every name, an exclusion pattern matching no line. -/
def cfgScen : MergerConfig :=
  { output := "out.py", workdir := "wd", file_regex := "", exclude_line_regex := "ZZZ",
    comment := "#", separator_start := "-", separator_end := "=", separator_length := "4",
    header := none, footer := none, order := some "b.py" }

/-- `cfgScen` with a header file and no explicit order. -/
def cfgHdr : MergerConfig := { cfgScen with header := some "head.py", order := none }

/-- A workdir holding one body file `b.py` (`y`-line) and a footer file
`ft.py` (`x`-line). -/
def fsFt : FileSystem :=
  { pathExists := fun _ => true
    isdir := fun _ => true
    isfile := fun _ => true
    listdir := fun _ => ["b.py"]
    content := fun p => if p == "wd/ft.py" then ["x\n"] else ["y\n"] }

/-- `cfgScen` with a footer file and no explicit order. -/
def cfgFt : MergerConfig := { cfgScen with footer := some "ft.py", order := none }

/-- A workdir whose single file `a.txt` does not match the file pattern
`py`, yet is named by `explicitOrder`. -/
def fsTxt : FileSystem :=
  { pathExists := fun _ => true
    isdir := fun _ => true
    isfile := fun _ => true
    listdir := fun _ => ["a.txt"]
    content := fun _ => ["x\n"] }

/-- Configuration whose `explicitOrder` names `a.txt` although the file
pattern is `py`. -/
def cfgTxt : MergerConfig := { cfgScen with file_regex := "py", order := some "a.txt" }

/-- Configuration with literal file pattern `py` and no explicit order. -/
def cfgPy : MergerConfig := { cfgScen with file_regex := "py", order := none }

/-- `explicitOrder` names `missing.py`, which the file system does not
have (everything else exists). -/
def cfgMiss : MergerConfig := { cfgScen with order := some "missing.py" }

/-- File system where exactly the path `wd/missing.py` is absent. -/
def fsMiss : FileSystem :=
  { pathExists := fun p => !(p == "wd/missing.py")
    isdir := fun _ => true
    isfile := fun _ => true
    listdir := fun _ => ["a.py"]
    content := fun _ => ["x\n"] }

/-- A file system where no path exists at all. -/
def fsNone : FileSystem :=
  { pathExists := fun _ => false
    isdir := fun _ => false
    isfile := fun _ => false
    listdir := fun _ => []
    content := fun _ => [] }

/-- CLI namespace with no flag given. -/
def argsNone : CliArgs :=
  { output := none, workdir := none, order := none, header := none, footer := none,
    comment := none, separator_start := none, separator_end := none,
    separator_length := none, file_regex := none, exclude_line_regex := none,
    debug := false, write := false }

/-- `--debug` alone. -/
def argsDebug : CliArgs := { argsNone with debug := true }

/-- `--write` alone. -/
def argsWrite : CliArgs := { argsNone with write := true }

/-- `--header h.py --footer f.py --separator-start * --separator-end + --separator-length 10`. -/
def argsSep : CliArgs :=
  { argsNone with
    header := some "h.py"
    footer := some "f.py"
    separator_start := some "*"
    separator_end := some "+"
    separator_length := some "10" }

/-- `--footer f.py` alone (no `--header`). -/
def argsFooterOnly : CliArgs := { argsNone with footer := some "f.py" }

/-- `--debug --footer f.py` (no `--header`). -/
def argsDebugFooter : CliArgs := { argsNone with debug := true, footer := some "f.py" }

/-! ## Helper lemmas -/

theorem stringJoin_cons (a : String) (l : List String) :
    String.join (a :: l) = a ++ String.join l := by
  apply String.ext
  simp [String.join_eq, String.data_append]

theorem stringJoin_append (l₁ l₂ : List String) :
    String.join (l₁ ++ l₂) = String.join l₁ ++ String.join l₂ := by
  apply String.ext
  simp [String.join_eq, String.data_append]

theorem ljust_length (s : String) (w : Nat) (c : Char) :
    (ljust s w c).length = max w s.length := by
  simp [ljust, String.length_append, String.length_mk, List.length_replicate]
  omega

/-- The ordered `for`-loop emits exactly the sections of `orderedKept`. -/
theorem orderedSections_eq (eng : String → String → Bool) (fs : FileSystem)
    (cfg : MergerConfig) (ord : List String) :
    orderedSections eng fs cfg ord =
      String.join ((orderedKept cfg ord).map (sectionFor eng fs cfg)) := by
  induction ord with
  | nil => rfl
  | cons a l ih =>
    by_cases h1 : cfg.header = some a <;> by_cases h2 : cfg.footer = some a <;>
      simp_all [orderedSections, orderedKept, List.filter_cons, stringJoin_cons,
        String.empty_append]

/-- The skip test of the unordered loop equals `contains` on the
defaulted order list. -/
theorem orderSkip_eq (orderOpt : Option (List String)) (f : String) :
    (match orderOpt with
     | some ord => ord.contains f
     | none => false) = (orderOpt.getD []).contains f := by
  cases orderOpt <;> rfl

/-- The directory-listing `for`-loop emits exactly the sections of
`unorderedKept`. -/
theorem unorderedSections_eq (eng : String → String → Bool) (fs : FileSystem)
    (cfg : MergerConfig) (orderOpt : Option (List String)) (files : List String) :
    unorderedSections eng fs cfg orderOpt files =
      String.join ((unorderedKept eng cfg orderOpt files).map (sectionFor eng fs cfg)) := by
  cases orderOpt with
  | none =>
    induction files with
    | nil => rfl
    | cons a l ih =>
      by_cases h1 : cfg.header = some a <;> by_cases h2 : cfg.footer = some a <;>
        by_cases h3 : eng cfg.file_regex a = true <;>
        simp_all [unorderedSections, unorderedKept, List.filter_cons, stringJoin_cons,
          String.empty_append]
  | some ord =>
    induction files with
    | nil => rfl
    | cons a l ih =>
      by_cases h0 : a ∈ ord <;>
        by_cases h1 : cfg.header = some a <;> by_cases h2 : cfg.footer = some a <;>
        by_cases h3 : eng cfg.file_regex a = true <;>
        simp_all [unorderedSections, unorderedKept, List.filter_cons, stringJoin_cons,
          String.empty_append]

/-- The merged text is the header, then one section per emitted body
file (in emission order), then the footer. -/
theorem mergeOutput_eq_emitted (eng : String → String → Bool) (fs : FileSystem)
    (cfg : MergerConfig) (p : MergeParams) :
    mergeOutput eng fs cfg p =
      headerSection eng fs cfg
        ++ String.join ((emittedBodyFiles eng cfg p.order p.filesToWatch).map
              (sectionFor eng fs cfg))
        ++ footerSection eng fs cfg := by
  cases h : p.order with
  | none =>
    simp [mergeOutput, emittedBodyFiles, h, unorderedSections_eq, String.empty_append,
      String.append_assoc]
  | some o =>
    simp [mergeOutput, emittedBodyFiles, h, orderedSections_eq, unorderedSections_eq,
      List.map_append, stringJoin_append, String.append_assoc]

/-- Counting a string in a filtered list. -/
theorem count_filter_eq (p : String → Bool) (l : List String) (a : String) :
    (l.filter p).count a = if p a then l.count a else 0 := by
  induction l with
  | nil => simp
  | cons b l ih =>
    by_cases hb : p b <;> by_cases hba : b = a <;>
      simp_all [List.filter_cons, List.count_cons]

/-- A missing path in the checked list makes the check loop fail, naming
a missing path of the list. -/
theorem checkFilesExist_error (fs : FileSystem) (paths : List String) (p : String)
    (hp : p ∈ paths) (hmiss : fs.pathExists p = false) :
    ∃ q, q ∈ paths ∧ fs.pathExists q = false ∧
      checkFilesExist fs paths = Except.error (MergeError.fileNotFound q) := by
  induction paths with
  | nil => simp at hp
  | cons a rest ih =>
    by_cases ha : fs.pathExists a = true
    · have hne : p ≠ a := fun e => by rw [e, ha] at hmiss; cases hmiss
      have hp' : p ∈ rest := by
        cases hp with
        | head => exact absurd rfl hne
        | tail _ h => exact h
      obtain ⟨q, hq, hqf, hres⟩ := ih hp'
      exact ⟨q, List.mem_cons_of_mem _ hq, hqf,
        by simp [checkFilesExist, checkFileExists, ha, hres]⟩
    · refine ⟨a, List.mem_cons_self a rest, by simpa using ha, ?_⟩
      simp [checkFilesExist, checkFileExists, ha]

/-- `List.isPrefixOf` on characters means a completion to the whole list
exists. -/
theorem isPrefixOf_eq_true_iff : ∀ (p l : List Char),
    p.isPrefixOf l = true ↔ ∃ t, p ++ t = l
  | [], l => by simp [List.isPrefixOf]
  | a :: as, [] => by simp [List.isPrefixOf]
  | a :: as, b :: bs => by
    simp [List.isPrefixOf, isPrefixOf_eq_true_iff as bs, eq_comm (a := a) (b := b)]

/-- `litSearchChars` succeeds exactly when the pattern occurs as a
contiguous substring. -/
theorem litSearchChars_true_iff (pat : List Char) : ∀ s : List Char,
    litSearchChars pat s = true ↔ ∃ pre post, s = pre ++ pat ++ post
  | [] => by
    simp [litSearchChars, isPrefixOf_eq_true_iff]
  | c :: rest => by
    simp [litSearchChars, isPrefixOf_eq_true_iff, litSearchChars_true_iff pat rest]
    constructor
    · rintro (⟨t, ht⟩ | ⟨pre, post, h⟩)
      · exact ⟨[], t, by simp [ht]⟩
      · exact ⟨c :: pre, post, by simp [h]⟩
    · rintro ⟨pre, post, h⟩
      cases pre with
      | nil =>
        exact Or.inl ⟨post, by simpa using h.symm⟩
      | cons x xs =>
        have hx : c = x ∧ rest = xs ++ (pat ++ post) := by
          simpa using h
        exact Or.inr ⟨xs, post, hx.2⟩


/-! ## Claims -/

/-- C1: a name in `explicitOrder` absent from `workDir` makes the run
fail with `FileNotFound` naming (the workdir path of) a missing order
entry, and the failure happens during validation, before the output file
is opened for writing — so the output file is left untouched (the
`Except.error` branch of `mergeRun` is taken before any text is
produced). -/
theorem c1_order_entry_missing_aborts
    (eng : String → String → Bool) (fs : FileSystem) (cfg : MergerConfig)
    (raw name : String)
    (hout : fs.pathExists cfg.output = true)
    (hdir : fs.isdir cfg.workdir = true)
    (hord : cfg.order = some raw)
    (hmem : name ∈ splitComma raw)
    (hmiss : fs.pathExists (pathJoin cfg.workdir name) = false) :
    ∃ m, m ∈ splitComma raw ∧ fs.pathExists (pathJoin cfg.workdir m) = false ∧
      mergeRun eng fs cfg =
        Except.error (MergeError.fileNotFound (pathJoin cfg.workdir m)) := by
  have hmem' : pathJoin cfg.workdir name ∈
      (splitComma raw).map (fun f => pathJoin cfg.workdir f) :=
    List.mem_map_of_mem _ hmem
  obtain ⟨q, hq, hqf, hres⟩ := checkFilesExist_error fs _ _ hmem' hmiss
  obtain ⟨m, hm, hmq⟩ := List.mem_map.mp hq
  refine ⟨m, hm, by rw [hmq]; exact hqf, ?_⟩
  simp [mergeRun, getParametersFromConfig, checkFileExists, checkWorkdirExists,
    hout, hdir, hord, hmq, hres]

/-- Witness for C1: `explicitOrder = missing.py` and `wd/missing.py`
absent. -/
theorem c1_order_entry_missing_aborts_witness :
    fsMiss.pathExists cfgMiss.output = true ∧
    fsMiss.isdir cfgMiss.workdir = true ∧
    cfgMiss.order = some "missing.py" ∧
    "missing.py" ∈ splitComma "missing.py" ∧
    fsMiss.pathExists (pathJoin cfgMiss.workdir "missing.py") = false ∧
    ∃ m, m ∈ splitComma "missing.py" ∧
      fsMiss.pathExists (pathJoin cfgMiss.workdir m) = false ∧
      mergeRun litSearch fsMiss cfgMiss =
        Except.error (MergeError.fileNotFound (pathJoin cfgMiss.workdir m)) :=
  ⟨rfl, rfl, rfl, by decide, rfl,
    c1_order_entry_missing_aborts litSearch fsMiss cfgMiss "missing.py" "missing.py"
      rfl rfl rfl (by decide) rfl⟩

/-- C2 counterexample: with file pattern `py` and `explicitOrder = a.txt`
over a workdir holding only `a.txt`, validation succeeds and `a.txt` is
emitted even though the pattern does not match it — refuting "files not
matching fileIncludePattern never appear in the output" (the ordered
loop of `main` never consults `file_regex`). -/
theorem c2_counterexample :
    litSearch cfgTxt.file_regex "a.txt" = false ∧
    getParametersFromConfig fsTxt cfgTxt =
      Except.ok { order := some ["a.txt"], filesToWatch := ["a.txt"] } ∧
    emittedBodyFiles litSearch cfgTxt (some ["a.txt"]) ["a.txt"] = ["a.txt"] ∧
    mergeRun litSearch fsTxt cfgTxt =
      Except.ok "\n# file \"wd/a.txt\" \nx\n\n\n\n# end of file \"wd/a.txt\" \n" :=
  ⟨rfl, rfl, rfl, rfl⟩

/-- C2 (amended): the multiset of body-file sections is — header/footer
never; an `explicitOrder` entry as many times as it occurs in
`explicitOrder`, regardless of `fileIncludePattern`; any other
directory-listing file matching `fileIncludePattern` once per listing
occurrence (exactly once for a duplicate-free listing); any other file
not matching the pattern never.  The pattern filters only the unordered
group. -/
theorem c2_body_multiset (eng : String → String → Bool) (cfg : MergerConfig)
    (orderOpt : Option (List String)) (files : List String) (f : String) :
    (emittedBodyFiles eng cfg orderOpt files).count f =
      if cfg.header = some f ∨ cfg.footer = some f then 0
      else if f ∈ orderOpt.getD [] then (orderOpt.getD []).count f
      else if eng cfg.file_regex f = true then files.count f
      else 0 := by
  cases orderOpt with
  | none =>
    by_cases h1 : cfg.header = some f <;> by_cases h2 : cfg.footer = some f <;>
      by_cases h3 : eng cfg.file_regex f = true <;>
      simp_all [emittedBodyFiles, unorderedKept, count_filter_eq]
  | some ord =>
    by_cases h0 : f ∈ ord <;> by_cases h1 : cfg.header = some f <;>
      by_cases h2 : cfg.footer = some f <;>
      by_cases h3 : eng cfg.file_regex f = true <;>
      simp_all [emittedBodyFiles, orderedKept, unorderedKept, List.count_append,
        count_filter_eq, List.count_eq_zero]

/-- C3: the merged text is the header section first, then one body
section per file of `orderedKept` (the `explicitOrder` sequence minus
header/footer entries, duplicates preserved), then one per file of
`unorderedKept` (directory-listing order), then the footer section; in
the two-file scenario with `explicitOrder = b.py` the body order is
`[b.py, a.py]`. -/
theorem c3_emission_order :
    (∀ (eng : String → String → Bool) (fs : FileSystem) (cfg : MergerConfig)
        (p : MergeParams),
      mergeOutput eng fs cfg p =
        headerSection eng fs cfg
          ++ String.join (((match p.order with
                            | some o => orderedKept cfg o
                            | none => []) ++
              unorderedKept eng cfg p.order p.filesToWatch).map (sectionFor eng fs cfg))
          ++ footerSection eng fs cfg) ∧
    emittedBodyFiles litSearch cfgScen (some ["b.py"]) ["a.py", "b.py"] =
      ["b.py", "a.py"] := by
  constructor
  · intro eng fs cfg p
    rw [mergeOutput_eq_emitted]
    rfl
  · rfl

/-- C4: the start banner is the literal prefix `{comment} file "{name}" `
right-padded with the start-pad character, the end banner the literal
prefix `{comment} end of file "{name}" ` right-padded with the end-pad
character, each of total length exactly `max bannerWidth prefixLength`
(so a prefix longer than the width is returned untruncated). -/
theorem c4_banner_shape (cfg : MergerConfig) (fileName : String) :
    startFileComment cfg fileName =
      (cfg.comment ++ " file \"" ++ fileName ++ "\" ") ++
        String.mk (List.replicate
          (sepLength cfg - (cfg.comment ++ " file \"" ++ fileName ++ "\" ").length)
          (startPadChar cfg)) ∧
    (startFileComment cfg fileName).length =
      max (sepLength cfg) (cfg.comment ++ " file \"" ++ fileName ++ "\" ").length ∧
    endFileComment cfg fileName =
      (cfg.comment ++ " end of file \"" ++ fileName ++ "\" ") ++
        String.mk (List.replicate
          (sepLength cfg - (cfg.comment ++ " end of file \"" ++ fileName ++ "\" ").length)
          (endPadChar cfg)) ∧
    (endFileComment cfg fileName).length =
      max (sepLength cfg) (cfg.comment ++ " end of file \"" ++ fileName ++ "\" ").length :=
  ⟨rfl, ljust_length _ _ _, rfl, ljust_length _ _ _⟩

/-- C5 counterexample: in a concrete body section the end banner occurs
but is never followed by two blank lines — the string `endBanner ++ "\n\n"`
does not occur in the section; the blank lines come before the end
banner, and the section ends right after `endBanner ++ "\n"`. -/
theorem c5_counterexample :
    writeToOutputFile litSearch cfgScen "f" ["x\n"] false false =
      "\n# file \"f\" \nx\n\n\n\n# end of file \"f\" \n" ∧
    litSearch (endFileComment cfgScen "f")
      (writeToOutputFile litSearch cfgScen "f" ["x\n"] false false) = true ∧
    litSearch (endFileComment cfgScen "f" ++ "\n\n")
      (writeToOutputFile litSearch cfgScen "f" ["x\n"] false false) = false :=
  ⟨rfl, by decide, by decide⟩

/-- C5 (amended): a body-file section is — a newline, the start banner
line, every line for which `shouldInclude` is true, then three newlines,
the end banner, and a final newline (the blank lines precede the end
banner rather than follow it). -/
theorem c5_section_layout (eng : String → String → Bool) (cfg : MergerConfig)
    (fileName : String) (lines : List String) :
    writeToOutputFile eng cfg fileName lines false false =
      "\n" ++ startFileComment cfg fileName ++ "\n"
        ++ String.join (lines.filter (shouldInclude eng cfg.exclude_line_regex false))
        ++ "\n\n\n" ++ endFileComment cfg fileName ++ "\n" := by
  simp [writeToOutputFile, String.append_assoc]

/-- With `ignore_regex=True` every line passes the inclusion test. -/
theorem shouldInclude_ignore (eng : String → String → Bool) (pat : String) :
    shouldInclude eng pat true = fun _ => true := rfl

/-- With `ignore_regex=False` a line passes exactly when the exclusion
pattern does not match it. -/
theorem shouldInclude_noignore (eng : String → String → Bool) (pat : String) :
    shouldInclude eng pat false = fun l => !(eng pat l) := rfl

/-- C6: with a header configured, the header section is exactly the
header file's full content (every line, unfiltered, no banner), and the
merged output starts with it — nothing is emitted before it. -/
theorem c6_header_verbatim_first (eng : String → String → Bool) (fs : FileSystem)
    (cfg : MergerConfig) (p : MergeParams) (hf : String)
    (hhdr : cfg.header = some hf) :
    headerSection eng fs cfg = String.join (fs.content (pathJoin cfg.workdir hf)) ∧
    ∃ rest, mergeOutput eng fs cfg p =
      String.join (fs.content (pathJoin cfg.workdir hf)) ++ rest := by
  have h1 : headerSection eng fs cfg =
      String.join (fs.content (pathJoin cfg.workdir hf)) := by
    simp [headerSection, hhdr, writeToOutputFile, shouldInclude_ignore,
      String.empty_append, String.append_empty]
  refine ⟨h1, (match p.order with
               | some o => orderedSections eng fs cfg o
               | none => "") ++ unorderedSections eng fs cfg p.order p.filesToWatch
                 ++ footerSection eng fs cfg, ?_⟩
  simp [mergeOutput, h1, String.append_assoc]

/-- Witness for C6: header `head.py` with content `import os\n`. -/
theorem c6_header_verbatim_first_witness :
    cfgHdr.header = some "head.py" ∧
    (headerSection litSearch fsTwo cfgHdr =
      String.join (fsTwo.content (pathJoin cfgHdr.workdir "head.py")) ∧
     ∃ rest, mergeOutput litSearch fsTwo cfgHdr
         { order := none, filesToWatch := ["a.py", "b.py"] } =
       String.join (fsTwo.content (pathJoin cfgHdr.workdir "head.py")) ++ rest) :=
  ⟨rfl, c6_header_verbatim_first litSearch fsTwo cfgHdr
    { order := none, filesToWatch := ["a.py", "b.py"] } "head.py" rfl⟩

/-- C7 counterexample: the footer emission is exactly its (filtered)
content — in a concrete run nothing at all precedes the footer content
inside the footer emission, refuting the claimed "leading separator
followed by its content": the whole-run output is the body section with
the bare footer line `x\n` appended directly. -/
theorem c7_counterexample :
    writeToOutputFile litSearch cfgFt (pathJoin cfgFt.workdir "ft.py") ["x\n"]
      true false = "x\n" ∧
    mergeRun litSearch fsFt cfgFt =
      Except.ok ("\n# file \"wd/b.py\" \ny\n\n\n\n# end of file \"wd/b.py\" \n"
        ++ "x\n") :=
  ⟨rfl, rfl⟩

/-- C7 (amended): with a footer configured, the footer section is emitted
last, carries no banners and no leading separator, and its lines ARE
filtered through `excludePattern` (lines the pattern matches are
dropped, unlike the header). -/
theorem c7_footer_filtered_last (eng : String → String → Bool) (fs : FileSystem)
    (cfg : MergerConfig) (p : MergeParams) (ft : String)
    (hft : cfg.footer = some ft) :
    footerSection eng fs cfg =
      String.join ((fs.content (pathJoin cfg.workdir ft)).filter
        (fun l => !(eng cfg.exclude_line_regex l))) ∧
    ∃ rest, mergeOutput eng fs cfg p = rest ++ footerSection eng fs cfg := by
  constructor
  · simp [footerSection, hft, writeToOutputFile, shouldInclude_noignore,
      String.empty_append, String.append_empty]
  · exact ⟨headerSection eng fs cfg
      ++ (match p.order with
          | some o => orderedSections eng fs cfg o
          | none => "")
      ++ unorderedSections eng fs cfg p.order p.filesToWatch, rfl⟩

/-- Witness for C7: footer `ft.py` with content `x\n`. -/
theorem c7_footer_filtered_last_witness :
    cfgFt.footer = some "ft.py" ∧
    (footerSection litSearch fsFt cfgFt =
      String.join ((fsFt.content (pathJoin cfgFt.workdir "ft.py")).filter
        (fun l => !(litSearch cfgFt.exclude_line_regex l))) ∧
     ∃ rest, mergeOutput litSearch fsFt cfgFt
         { order := none, filesToWatch := ["b.py"] } =
       rest ++ footerSection litSearch fsFt cfgFt) :=
  ⟨rfl, c7_footer_filtered_last litSearch fsFt cfgFt
    { order := none, filesToWatch := ["b.py"] } "ft.py" rfl⟩

/-- C8 (code bug, evaluated at the failing input): with
`--header h.py --footer f.py --separator-start * --separator-end +
--separator-length 10`, `copy_parser_arguments_to_config` resolves the
footer to the `--header` value `h.py` (not `f.py`), and leaves all three
separator settings at their defaults — the `--separator-*` flags are
parsed but never copied into the configuration.  With `--footer f.py`
alone the copy does not even complete: the line-170 assignment of the
absent header raises `TypeError`. -/
theorem c8_footer_and_separator_overrides_dropped :
    argsSep.footer = some "f.py" ∧
    argsSep.separator_start = some "*" ∧
    argsSep.separator_end = some "+" ∧
    argsSep.separator_length = some "10" ∧
    (copyParserArgumentsToConfig argsSep defaultConfig).map MergerConfig.footer =
      Except.ok (some "h.py") ∧
    (copyParserArgumentsToConfig argsSep defaultConfig).map MergerConfig.separator_start =
      Except.ok "-" ∧
    (copyParserArgumentsToConfig argsSep defaultConfig).map MergerConfig.separator_end =
      Except.ok "=" ∧
    (copyParserArgumentsToConfig argsSep defaultConfig).map MergerConfig.separator_length =
      Except.ok "80" ∧
    copyParserArgumentsToConfig argsFooterOnly defaultConfig =
      Except.error CopyError.typeError :=
  ⟨rfl, rfl, rfl, rfl, rfl, rfl, rfl, rfl, rfl⟩

/-- C9 counterexample: `--debug --footer f.py` (no `--header`) does not
exit with status zero — `copy_parser_arguments_to_config`, which `main`
calls before the `--debug` early exit, raises an uncaught `TypeError`
on the line-170 assignment of the absent header, so the process aborts
non-zero before ever reaching `parser.exit`. -/
theorem c9_counterexample :
    argsDebugFooter.debug = true ∧
    copyParserArgumentsToConfig argsDebugFooter defaultConfig =
      Except.error CopyError.typeError ∧
    mainRun litSearch fsNone defaultConfig argsDebugFooter = RunResult.crashed ∧
    mainRun litSearch fsTwo defaultConfig argsDebugFooter = RunResult.crashed :=
  ⟨rfl, rfl, rfl, rfl⟩

/-- C9 (amended): whenever argument copying succeeds (in particular
whenever `--footer` is not given without `--header`), under `--debug` or
`--write` the run exits (status zero) with a fixed message for every
file system — in particular without consulting `pathExists` on the
output path and without merging; only a merge run performs the
output-existence check, failing with `FileNotFound` on the resolved
output path when it is absent.  When copying raises, the run crashes
before the exits — also without checking the output path. -/
theorem c9_output_check_only_on_merge (eng : String → String → Bool)
    (cfg0 : MergerConfig) (args : CliArgs) (cfg : MergerConfig)
    (hcopy : copyParserArgumentsToConfig args cfg0 = Except.ok cfg) :
    (args.debug = true ∨ args.write = true →
      ∃ msg, ∀ fs : FileSystem, mainRun eng fs cfg0 args = RunResult.exited msg) ∧
    (args.debug = false → args.write = false →
      ∀ fs : FileSystem,
        fs.pathExists cfg.output = false →
          mainRun eng fs cfg0 args =
            RunResult.failed (MergeError.fileNotFound cfg.output)) := by
  constructor
  · intro h
    by_cases hd : args.debug = true
    · exact ⟨"No further operations will be performed", fun fs => by
        simp [mainRun, hcopy, hd]⟩
    · have hd' : args.debug = false := by
        cases hb : args.debug
        · rfl
        · exact absurd hb hd
      have hw : args.write = true := by
        cases h with
        | inl h => exact absurd h hd
        | inr h => exact h
      exact ⟨"Config file created with listed values", fun fs => by
        simp [mainRun, hcopy, hd', hw]⟩
  · intro hd hw fs hmiss
    simp [mainRun, hcopy, hd, hw, mergeRun, getParametersFromConfig,
      checkFileExists, hmiss]

/-- Witness for C9: `--debug` and `--write` (copying succeeds) exit for
every file system; a plain merge with a missing output file fails
naming it. -/
theorem c9_output_check_only_on_merge_witness :
    copyParserArgumentsToConfig argsDebug defaultConfig = Except.ok defaultConfig ∧
    (∃ msg, ∀ fs : FileSystem,
      mainRun litSearch fs defaultConfig argsDebug = RunResult.exited msg) ∧
    (∃ msg, ∀ fs : FileSystem,
      mainRun litSearch fs defaultConfig argsWrite = RunResult.exited msg) ∧
    mainRun litSearch fsNone defaultConfig argsNone =
      RunResult.failed (MergeError.fileNotFound defaultConfig.output) :=
  ⟨rfl,
   (c9_output_check_only_on_merge litSearch defaultConfig argsDebug
      defaultConfig rfl).1 (Or.inl rfl),
   (c9_output_check_only_on_merge litSearch defaultConfig argsWrite
      defaultConfig rfl).1 (Or.inr rfl),
   (c9_output_check_only_on_merge litSearch defaultConfig argsNone
      defaultConfig rfl).2 rfl rfl fsNone rfl⟩

/-- C10: a directory-listing file not named in `explicitOrder` (and not
header/footer) is emitted exactly when the literal file pattern occurs
anywhere inside its name — substring search, not a full-name match. -/
theorem c10_pattern_substring_inclusion (cfg : MergerConfig)
    (orderOpt : Option (List String)) (files : List String) (f : String)
    (hmem : f ∈ files)
    (hnotord : (orderOpt.getD []).contains f = false)
    (hh : cfg.header ≠ some f)
    (hft : cfg.footer ≠ some f) :
    f ∈ emittedBodyFiles litSearch cfg orderOpt files ↔
      ∃ pre post : List Char,
        f.toList = pre ++ cfg.file_regex.toList ++ post := by
  cases orderOpt with
  | none =>
    simp [emittedBodyFiles, unorderedKept, List.mem_filter, hmem, hh, hft,
      litSearch, litSearchChars_true_iff]
  | some o =>
    have hfo : f ∉ o := by simpa using hnotord
    simp [emittedBodyFiles, orderedKept, unorderedKept, List.mem_append,
      List.mem_filter, hmem, hh, hft, hfo, litSearch, litSearchChars_true_iff]

/-- Witness for C10: pattern `py`, file `mypyc.txt` — included although
the pattern is not the whole name. -/
theorem c10_pattern_substring_inclusion_witness :
    ("mypyc.txt" ∈ emittedBodyFiles litSearch cfgPy none ["mypyc.txt"]) ∧
    cfgPy.file_regex ≠ "mypyc.txt" :=
  ⟨(c10_pattern_substring_inclusion cfgPy none ["mypyc.txt"] "mypyc.txt"
      (by decide) rfl (by decide) (by decide)).mpr
      ⟨['m', 'y'], ['c', '.', 't', 'x', 't'], by decide⟩,
   by decide⟩
